import Mathlib

/-!
Shallow embedding of `src/filter.py`, the host-side driver of a tunable
optical bandpass filter spoken to over a serial line.

Modelling conventions:
* `np.floating` values are modelled as exact rationals (`ℚ`); `np.round`
  (round half to even) is `npRound`.  The Batteries arithmetic on `Rat`
  is `@[irreducible]`, which blocks kernel evaluation, so the embedding
  computes with `qAdd`/`qSub`/`qMul`/`qDiv` built on `mkRat`; the
  bridging lemmas right after them show they are the ordinary rational
  operations.
* The serial transport is a `Transport` record holding the scripted
  responses still to be read (`reads`, one entry per `read_until` result,
  `""` standing for a timed-out read that accumulated nothing), the log
  of written frames (`writes`) and counters of the buffer resets.  A
  `read_until` on an exhausted script keeps returning `""` in the real
  code; the sweep loop over it is modelled by recursion on the script
  with an explicit `hang` outcome for the exhausted case.
* Python exceptions become the `Err` sum carried in `Except`: `assert`
  failures are `Err.assertionError` (the ProtocolViolation of the spec),
  failed integer parses are `Err.valueError`, and calling the `None`
  cast function is `Err.typeError`.
* Device responses inside `write_and_read`, `scan` and `set_channel` are
  modelled as already-decoded text (the protocol is ASCII); `connect` is
  where a UTF-8 decode failure is at issue, so it models the raw probe
  bytes together with a strict UTF-8 decoder.
* `print` progress output is a user-facing sink external to protocol
  behaviour and is not modelled; `warnings.warn` messages are collected
  in a list because the precision-loss policy is about them.  Numbers are
  rendered into error texts with Lean `toString`, which coincides with
  Python for integers though not for every float.
-/

/-- Exact rational from numerator and denominator (kernel-evaluable). -/
def qMk (n : Int) (d : Nat) : ℚ := mkRat n d

/-- Rational addition via `mkRat` (kernel-evaluable). -/
def qAdd (a b : ℚ) : ℚ := mkRat (a.num * b.den + b.num * a.den) (a.den * b.den)

/-- Rational subtraction via `mkRat` (kernel-evaluable). -/
def qSub (a b : ℚ) : ℚ := mkRat (a.num * b.den - b.num * a.den) (a.den * b.den)

/-- Rational multiplication via `mkRat` (kernel-evaluable). -/
def qMul (a b : ℚ) : ℚ := mkRat (a.num * b.num) (a.den * b.den)

/-- Rational division via `mkRat` (kernel-evaluable). -/
def qDiv (a b : ℚ) : ℚ :=
  if b.num < 0 then mkRat (-(a.num * b.den)) (a.den * (-b.num).toNat)
  else mkRat (a.num * b.den) (a.den * b.num.toNat)

/-- Python `s.startswith(p)`. -/
def pyStartswith (s p : String) : Bool :=
  p.data.isPrefixOf s.data

/-- Helper for Python `str.find`: position of the first occurrence of
`need` in the remaining text, if any. -/
def charsFindAux (need : List Char) : List Char → Option Nat
  | [] => if need.isPrefixOf ([] : List Char) then some 0 else none
  | a :: t =>
    if need.isPrefixOf (a :: t) then some 0
    else (charsFindAux need t).map (· + 1)

/-- Python `s.find(sub)`: first index of `sub` in `s`, `-1` when absent. -/
def pyFind (s sub : String) : Int :=
  match charsFindAux sub.data s.data with
  | some n => (n : Int)
  | none => -1

/-- Python slice `s[a:b]` (negative indices count from the end, out of
range indices are clamped). -/
def pySlice (s : String) (a b : Int) : String :=
  let n : Int := s.data.length
  let a2 : Int := if a < 0 then max (a + n) 0 else min a n
  let b2 : Int := if b < 0 then max (b + n) 0 else min b n
  String.mk ((s.data.drop a2.toNat).take (b2.toNat - a2.toNat))

/-- Decimal digits to the natural number they denote. -/
def digitsToNat (l : List Char) : Nat :=
  l.foldl (fun a c => a * 10 + (c.toNat - 48)) 0

/-- Python `int(s)`: optional surrounding blanks, optional sign, then a
nonempty run of decimal digits; anything else raises `ValueError`
(modelled as `none`). -/
def pyInt? (s : String) : Option Int :=
  let l := s.data.dropWhile (· = ' ')
  let l := (l.reverse.dropWhile (· = ' ')).reverse
  match l with
  | '-' :: ds =>
    if ds ≠ [] ∧ ds.all (·.isDigit) then some (-(digitsToNat ds : Int)) else none
  | '+' :: ds =>
    if ds ≠ [] ∧ ds.all (·.isDigit) then some (digitsToNat ds : Int) else none
  | ds =>
    if ds ≠ [] ∧ ds.all (·.isDigit) then some (digitsToNat ds : Int) else none

/-- Python `s.zfill(w)`: pad with zeros on the left to width `w`, after
a leading sign when present. -/
def zfill (s : String) (w : Nat) : String :=
  if w ≤ s.length then s
  else
    match s.data with
    | [] => String.mk (List.replicate w '0')
    | c :: rest =>
      if c = '-' ∨ c = '+' then
        String.mk (c :: (List.replicate (w - s.length) '0' ++ rest))
      else
        String.mk (List.replicate (w - s.length) '0' ++ s.data)

/-- `np.round` on an exact rational: round half to even.  `q.num.ediv
q.den` is `⌊q⌋` since `q.den > 0`, and `2*(q.num - ⌊q⌋*q.den)` compared
with `q.den` compares the fractional part with `1/2`. -/
def npRound (q : ℚ) : Int :=
  let f : Int := q.num.ediv q.den
  let twice : Int := 2 * (q.num - f * q.den)
  if twice < (q.den : Int) then f
  else if (q.den : Int) < twice then f + 1
  else if f % 2 = 0 then f else f + 1

/-- `filter.py` line 144: `wl_int = int(np.round(wl))`. -/
def wlCoarse (wl : ℚ) : Int := npRound wl

/-- `filter.py` line 145: `wl_fl = int(np.round((wl - wl_int) / 0.2))`. -/
def wlFine (wl : ℚ) : Int :=
  npRound (qDiv (qSub wl (wlCoarse wl : ℚ)) (qMk 1 5))

/-- Python exceptions that the driver can raise. -/
inductive Err where
  | valueError (msg : String)
  | assertionError (msg : String)
  | typeError (msg : String)
deriving Repr, DecidableEq

/-- The `cast_func` argument of `write_and_read`: the call sites pass the
builtin `int` or the value `None`. -/
inductive CastFn where
  | intCast
  | noneCast
deriving Repr, DecidableEq

instance {ε α : Type} [DecidableEq ε] [DecidableEq α] : DecidableEq (Except ε α) := fun a b =>
  match a, b with
  | .ok x, .ok y =>
    if h : x = y then .isTrue (by rw [h]) else .isFalse (fun e => h (Except.ok.inj e))
  | .error x, .error y =>
    if h : x = y then .isTrue (by rw [h]) else .isFalse (fun e => h (Except.error.inj e))
  | .ok _, .error _ => .isFalse (fun e => Except.noConfusion e)
  | .error _, .ok _ => .isFalse (fun e => Except.noConfusion e)

/-- The serial transport: scripted responses still to be read, the log of
written frames, and counters of buffer resets. -/
structure Transport where
  reads : List String
  writes : List String
  inputResets : Nat
  outputResets : Nat
deriving Repr, DecidableEq

/-- `ser.reset_input_buffer(); ser.reset_output_buffer()`. -/
def resetBuffers (t : Transport) : Transport :=
  { t with inputResets := t.inputResets + 1, outputResets := t.outputResets + 1 }

/-- `ser.read_until(...)`: the next scripted response, or `""` (a read
that timed out with nothing) when the script is exhausted. -/
def readUntil (t : Transport) : String × Transport :=
  (t.reads.headD "", { t with reads := t.reads.tail })

/-- `filter.py` lines 9-20, `write_and_read`: reset the buffers, write
`startsWith + input_str + eol_w`, flush, read until `eol_r`, require the
echoed prefix, and return the decoded payload (`none` when the delimiter
immediately follows the echo).  Applying the `None` cast to a payload
raises `TypeError`; a failed `int` parse raises `ValueError`. -/
def write_and_read (ser : Transport) (input_str startsWith eol_r eol_w : String)
    (cast_func : CastFn) : Except Err (Option Int) × Transport :=
  let t1 := resetBuffers ser
  let t2 := { t1 with writes := t1.writes ++ [startsWith ++ input_str ++ eol_w] }
  let p := readUntil t2
  let data := p.1
  let t3 := p.2
  if pyStartswith data startsWith then
    if pyFind data startsWith + 1 = pyFind data eol_r then (.ok none, t3)
    else
      match cast_func with
      | .intCast =>
        match pyInt? (pySlice data (pyFind data startsWith + 1) (pyFind data eol_r)) with
        | some n => (.ok (some n), t3)
        | none =>
          (.error (.valueError ("invalid literal for int with base 10: "
            ++ pySlice data (pyFind data startsWith + 1) (pyFind data eol_r))), t3)
      | .noneCast => (.error (.typeError "NoneType object is not callable"), t3)
  else
    (.error (.assertionError ("Device returned unexpected response: " ++ data)), t3)

/-- Outcome of the sweep loop of `scan` (lines 105-114): `done` when the
first non-`S` frame starts with `o` (the AssertionError is swallowed),
`viol` when it does not (the AssertionError is re-raised), `hang` when
the script runs out (the real loop would block forever on empty reads). -/
inductive SweepSignal where
  | done
  | viol (raw : String)
  | hang
deriving Repr, DecidableEq

/-- The sweep loop: empty reads are retried, `S`-prefixed frames are
progress (printed, not modelled) and the loop continues; the first frame
violating the `S` prefix ends it. -/
def sweepLoop (supress_output : Bool) : List String → SweepSignal × List String
  | [] => (.hang, [])
  | data :: rest =>
    if data = "" then sweepLoop supress_output rest
    else if pyStartswith data "S" then sweepLoop supress_output rest
    else if pyStartswith data "o" then (.done, rest)
    else (.viol data, rest)

/-- Result of `scan`: the tuple of previous settings, a raised error, or
an unbounded block on a transport that never responds. -/
inductive ScanOut where
  | ok (start_prev end_prev : Option Int) (stay_prev : ℚ)
  | err (e : Err)
  | hang
deriving Repr, DecidableEq

/-- `filter.py` lines 56-116, `scan`: reset buffers, encode `stay` in
tenths, validate the four parameters, run the three configuration
exchanges `L`, `H`, `T`, write the sweep trigger `S`, then drive the
sweep loop. -/
def scan (ser : Transport) (start end_ : Int) (stay : ℚ) (span : Int)
    (supress_output : Bool) : ScanOut × Transport :=
  let t1 := resetBuffers ser
  let _stay := npRound (qMul stay 10)
  if start < 1510 ∨ 1589 < start then
    (.err (.valueError s!"The start wavelength has to be between 1510 and 1589, got {start}."), t1)
  else if end_ < 1510 ∨ 1589 < end_ then
    (.err (.valueError s!"The end wavelength has to be between 1510 and 1589, got {end_}."), t1)
  else if _stay < 1 ∨ 300 < _stay then
    (.err (.valueError s!"The stay time has to be between 0.1 and 30.0, got {stay}."), t1)
  else if span < 1 ∨ 30 < span then
    (.err (.valueError s!"The stay span has to be between 1 and 30, got {span}."), t1)
  else
    match write_and_read t1 (zfill (toString start) 4) "L" " " "," .intCast with
    | (.error e, t2) => (.err e, t2)
    | (.ok start_prev, t2) =>
      match write_and_read t2 (zfill (toString end_) 4) "H" " " "," .intCast with
      | (.error e, t3) => (.err e, t3)
      | (.ok end_prev, t3) =>
        match write_and_read t3 (zfill (toString _stay) 4) "T" " " "," .intCast with
        | (.error e, t4) => (.err e, t4)
        | (.ok none, t4) =>
          (.err (.typeError "unsupported operand type for div: NoneType and int"), t4)
        | (.ok (some n), t4) =>
          let stay_prev : ℚ := qDiv (n : ℚ) 10
          let t5 := { t4 with writes := t4.writes ++ ["S" ++ zfill (toString span) 4 ++ ","] }
          match sweepLoop supress_output t5.reads with
          | (.done, rem) => (.ok start_prev end_prev stay_prev, { t5 with reads := rem })
          | (.viol raw, rem) =>
            (.err (.assertionError ("Device returned unexpected response: " ++ raw)),
              { t5 with reads := rem })
          | (.hang, rem) => (.hang, { t5 with reads := rem })

/-- Result of `set_channel`: the returned value (`some 0` for the literal
`return 0`, `none` for Python falling off the end returning `None`) or a
raised error, together with the emitted warnings and the transport. -/
structure SetChannelRes where
  ret : Except Err (Option Int)
  warns : List String
  t : Transport
deriving Repr, DecidableEq

/-- `filter.py` lines 118-156, `set_channel`: reset buffers, split the
wavelength into coarse plus fine steps, validate the coarse value, send
`C`, maybe warn about precision loss (the source compares the signed
difference `wl - (wl_int + wl_fl*0.2)` against `1e-6`), then send `D` or
`I` when a fine adjustment is needed. -/
def set_channel (ser : Transport) (wl : ℚ) (suppress_output : Bool) : SetChannelRes :=
  let t1 := resetBuffers ser
  let wl_int : Int := wlCoarse wl
  let wl_fl : Int := wlFine wl
  if wl_int < 1510 ∨ 1589 < wl_int then
    ⟨.error (.valueError s!"The wavelength has to be between 1510 and 1589, got {wl}."), [], t1⟩
  else
    match write_and_read t1 (zfill (toString wl_int) 4) "C" " " "," .noneCast with
    | (.error e, t2) => ⟨.error e, [], t2⟩
    | (.ok _, t2) =>
      let closest : ℚ := qAdd (wl_int : ℚ) (qMul (wl_fl : ℚ) (qMk 1 5))
      let warns :=
        if suppress_output = false ∧ qMk 1 1000000 < qSub wl closest then
          [s!"{wl} not achieveable, setting to closest wavelength {closest}"]
        else []
      if wl_fl = 0 then ⟨.ok (some 0), warns, t2⟩
      else if wl_fl < 0 then
        match write_and_read t2 (zfill (toString (-wl_fl)) 4) "D" " " "," .noneCast with
        | (.error e, t3) => ⟨.error e, warns, t3⟩
        | (.ok _, t3) => ⟨.ok none, warns, t3⟩
      else
        match write_and_read t2 (zfill (toString wl_fl) 4) "I" " " "," .noneCast with
        | (.error e, t3) => ⟨.error e, warns, t3⟩
        | (.ok _, t3) => ⟨.ok none, warns, t3⟩

/-- A candidate serial port for `connect`: its platform name and the raw
bytes its identity probe returns. -/
structure Port where
  device : String
  probe : List Nat
deriving Repr, DecidableEq

/-- Outcome of `connect`: the first matching port, no device found, or a
`UnicodeDecodeError` escaping the scan. -/
inductive ConnectOut where
  | found (device : String)
  | notFound
  | decodeErr
deriving Repr, DecidableEq

/-- Strict UTF-8 decoding of a byte list (continuation bytes in
`0x80..0xBF`, no overlong forms, no surrogates, at most `0x10FFFF`),
with the list length as structural fuel. -/
def utf8DecodeAux : Nat → List Nat → Option (List Char)
  | _, [] => some []
  | 0, _ :: _ => none
  | fuel + 1, b :: bs =>
    if b < 128 then
      (utf8DecodeAux fuel bs).map (Char.ofNat b :: ·)
    else if 194 ≤ b ∧ b ≤ 223 then
      match bs with
      | b1 :: bs2 =>
        if 128 ≤ b1 ∧ b1 ≤ 191 then
          (utf8DecodeAux fuel bs2).map (Char.ofNat ((b - 192) * 64 + (b1 - 128)) :: ·)
        else none
      | [] => none
    else if 224 ≤ b ∧ b ≤ 239 then
      match bs with
      | b1 :: b2 :: bs3 =>
        if (128 ≤ b1 ∧ b1 ≤ 191) ∧ (128 ≤ b2 ∧ b2 ≤ 191) then
          let cp := (b - 224) * 4096 + (b1 - 128) * 64 + (b2 - 128)
          if 2048 ≤ cp ∧ ¬(55296 ≤ cp ∧ cp ≤ 57343) then
            (utf8DecodeAux fuel bs3).map (Char.ofNat cp :: ·)
          else none
        else none
      | _ => none
    else if 240 ≤ b ∧ b ≤ 244 then
      match bs with
      | b1 :: b2 :: b3 :: bs4 =>
        if (128 ≤ b1 ∧ b1 ≤ 191) ∧ (128 ≤ b2 ∧ b2 ≤ 191) ∧ (128 ≤ b3 ∧ b3 ≤ 191) then
          let cp := (b - 240) * 262144 + (b1 - 128) * 4096 + (b2 - 128) * 64 + (b3 - 128)
          if 65536 ≤ cp ∧ cp ≤ 1114111 then
            (utf8DecodeAux fuel bs4).map (Char.ofNat cp :: ·)
          else none
        else none
      | _ => none
    else none

/-- Python `bytes.decode` with the `utf-8` codec; `none` is the raised
`UnicodeDecodeError`. -/
def utf8Decode (bs : List Nat) : Option String :=
  (utf8DecodeAux bs.length bs).map String.mk

/-- `filter.py` lines 22-54, `connect`: probe the candidate ports in
order with `V,`, return the first whose response decodes to text
starting with `V2`; a port that fails to decode raises
`UnicodeDecodeError` out of the loop (there is no handler).  Opening,
closing, baud rate, timeouts and status printing are external
side effects that carry no protocol state and are not modelled. -/
def connect : List Port → ConnectOut
  | [] => .notFound
  | p :: rest =>
    match utf8Decode p.probe with
    | none => .decodeErr
    | some s => if pyStartswith s "V2" then .found p.device else connect rest

/-- A well-formed response frame: echo character, payload text, then the
`' '` delimiter. -/
def frameFor (c : Char) (d : String) : String :=
  String.mk (c :: d.data ++ [' '])

/-- A port whose probe decodes but does not identify the filter (used to
state hypotheses about ports earlier in the scan order). -/
def probeMisses (q : Port) : Bool :=
  match utf8Decode q.probe with
  | some s => ! pyStartswith s "V2"
  | none => false

theorem qMk_eq (n : Int) (d : Nat) : qMk n d = (n : ℚ) / (d : ℚ) := by
  simp [qMk, Rat.mkRat_eq_div]

theorem qAdd_eq (a b : ℚ) : qAdd a b = a + b := by
  rw [qAdd, Rat.add_def']

theorem qSub_eq (a b : ℚ) : qSub a b = a - b := by
  rw [qSub, Rat.sub_def']

theorem qMul_eq (a b : ℚ) : qMul a b = a * b := by
  rw [qMul, Rat.mul_def, Rat.normalize_eq_mkRat]

theorem qDiv_eq (a b : ℚ) : qDiv a b = a / b := by
  have hda : ((a.den : ℚ)) ≠ 0 := by exact_mod_cast a.den_nz
  have hdb : ((b.den : ℚ)) ≠ 0 := by exact_mod_cast b.den_nz
  have ha : ((a.num : ℚ)) = a * (a.den : ℚ) := (div_eq_iff hda).mp (Rat.num_div_den a)
  have hb : ((b.num : ℚ)) = b * (b.den : ℚ) := (div_eq_iff hdb).mp (Rat.num_div_den b)
  rcases lt_trichotomy b.num 0 with h | h | h
  · have hbne : b ≠ 0 := Rat.num_ne_zero.mp (by omega)
    have hbnq : ((b.num : ℚ)) < 0 := by exact_mod_cast h
    have htn : (((-b.num).toNat : Nat) : ℚ) = -((b.num : ℚ)) := by
      have h1 : (((-b.num).toNat : Nat) : Int) = -b.num := Int.toNat_of_nonneg (by omega)
      exact_mod_cast congrArg (fun z : Int => (z : ℚ)) h1
    rw [qDiv, if_pos h, Rat.mkRat_eq_div]
    push_cast
    rw [htn, div_eq_div_iff (mul_ne_zero hda (neg_ne_zero.mpr (ne_of_lt hbnq))) hbne]
    rw [ha, hb]
    ring
  · have hb0 : b = 0 := Rat.num_eq_zero.mp h
    subst hb0
    simp [qDiv]
  · have hbne : b ≠ 0 := Rat.num_ne_zero.mp (by omega)
    have hbnq : (0:ℚ) < ((b.num : ℚ)) := by exact_mod_cast h
    have htn : ((b.num.toNat : Nat) : ℚ) = ((b.num : ℚ)) := by
      have h1 : ((b.num.toNat : Nat) : Int) = b.num := Int.toNat_of_nonneg (by omega)
      exact_mod_cast congrArg (fun z : Int => (z : ℚ)) h1
    rw [qDiv, if_neg (by omega), Rat.mkRat_eq_div]
    push_cast
    rw [htn, div_eq_div_iff (mul_ne_zero hda (ne_of_gt hbnq)) hbne]
    rw [ha, hb]
    ring

example : wlCoarse 1550 = 1550 ∧ wlFine 1550 = 0 := by decide
example : wlCoarse (qMk 15502 10) = 1550 ∧ wlFine (qMk 15502 10) = 1 := by decide
example : wlCoarse (qMk 15498 10) = 1550 ∧ wlFine (qMk 15498 10) = -1 := by decide
example : wlCoarse (qMk 155037 100) = 1550 ∧ wlFine (qMk 155037 100) = 2 := by decide
example : npRound (qMk 1 2) = 0 ∧ npRound (qMk 3 2) = 2 ∧ npRound (qMk (-1) 2) = 0 := by decide
example : pyInt? "1510" = some 1510 := by decide
example : zfill "12" 4 = "0012" := by decide
example : pyFind "C1234 " " " = 5 := by decide
example : pySlice "C1234 " 1 5 = "1234" := by decide
example :
    write_and_read ⟨["L1520 "], [], 0, 0⟩ "1520" "L" " " "," .intCast =
      (.ok (some 1520), ⟨[], ["L1520,"], 1, 1⟩) := by decide
example :
    write_and_read ⟨["C "], [], 0, 0⟩ "1510" "C" " " "," .noneCast =
      (.ok none, ⟨[], ["C1510,"], 1, 1⟩) := by decide
example :
    (write_and_read ⟨["C1234 "], [], 0, 0⟩ "1510" "C" " " "," .noneCast).1 =
      .error (.typeError "NoneType object is not callable") := by decide
example :
    (write_and_read ⟨[], [], 0, 0⟩ "1510" "C" " " "," .noneCast).1 =
      .error (.assertionError "Device returned unexpected response: ") := by decide
example :
    (scan ⟨["L1510 ", "H1589 ", "T0010 ", "S1520 ", "S1525 ", "oK "], [], 0, 0⟩
        1520 1530 (qMk 3 2) 5 false).1 =
      .ok (some 1510) (some 1589) (qMk 1 1) := by decide
example :
    (scan ⟨["L1510 ", "H1589 ", "T0010 ", "S1520 ", "E1 "], [], 0, 0⟩
        1520 1530 (qMk 3 2) 5 false).1 =
      .err (.assertionError "Device returned unexpected response: E1 ") := by decide
example :
    (scan ⟨[], [], 0, 0⟩ 1600 1530 (qMk 3 2) 5 false).1 =
      .err (.valueError "The start wavelength has to be between 1510 and 1589, got 1600.") := by
  decide
example :
    (set_channel ⟨["C ", "I "], [], 0, 0⟩ (qMk 155037 100) false).warns = [] := by decide
example :
    (set_channel ⟨["C ", "I "], [], 0, 0⟩ (qMk 155043 100) false).warns ≠ [] := by decide
example :
    (set_channel ⟨[], [], 0, 0⟩ (qMk 1600 1) false).ret =
      .error (.valueError "The wavelength has to be between 1510 and 1589, got 1600.") := by
  decide
example : utf8Decode [86, 50, 32] = some "V2 " := by decide
example : utf8Decode [255] = none := by decide
example :
    connect [⟨"COM1", [255]⟩, ⟨"COM2", [86, 50, 32]⟩] = .decodeErr := by decide
example :
    connect [⟨"COM1", [86, 49, 32]⟩, ⟨"COM2", [86, 50, 32]⟩] = .found "COM2" := by decide

theorem str_data_ne (s : String) (h : s ≠ "") : s.data ≠ [] := by
  intro hd
  apply h
  cases s
  simp only at hd
  rw [hd]

theorem pyStartswith_empty (sw : String) (h : sw ≠ "") : pyStartswith "" sw = false := by
  have hd := str_data_ne sw h
  cases hsw : sw.data with
  | nil => exact absurd hsw hd
  | cons c cs => simp [pyStartswith, hsw, List.isPrefixOf]

theorem charsFindAux_single (e : Char) (pre post : List Char) (h : e ∉ pre) :
    charsFindAux [e] (pre ++ e :: post) = some pre.length := by
  induction pre with
  | nil => simp [charsFindAux, List.isPrefixOf]
  | cons a t ih =>
    have hmem : e ≠ a ∧ e ∉ t := by
      constructor
      · intro he
        exact h (by rw [he]; exact List.mem_cons_self a t)
      · intro he
        exact h (List.mem_cons_of_mem a he)
    have hstep : ∀ l : List Char, ([e].isPrefixOf (a :: l)) = false := by
      intro l
      simp [List.isPrefixOf]
      intro he
      exact absurd he hmem.1
    simp [List.cons_append, charsFindAux, hstep, ih hmem.2]

theorem write_and_read_frame (t : Transport) (inp sw ew : String) (c : Char) (d : String)
    (rest : List String) (cf : CastFn)
    (hr : t.reads = frameFor c d :: rest)
    (hsw : sw.data = [c]) (hc : c ≠ ' ') (hd : ' ' ∉ d.data) :
    write_and_read t inp sw " " ew cf =
      ((if d.data = [] then Except.ok none
        else
          match cf with
          | .intCast =>
            match pyInt? d with
            | some n => Except.ok (some n)
            | none =>
              Except.error (.valueError ("invalid literal for int with base 10: " ++ d))
          | .noneCast => Except.error (.typeError "NoneType object is not callable")),
       { reads := rest, writes := t.writes ++ [sw ++ inp ++ ew],
         inputResets := t.inputResets + 1, outputResets := t.outputResets + 1 }) := by
  have hdata : (frameFor c d).data = c :: (d.data ++ [' ']) := rfl
  have hspd : (" " : String).data = [' '] := rfl
  have hps : pyStartswith (frameFor c d) sw = true := by
    simp [pyStartswith, hdata, hsw, List.isPrefixOf]
  have hpre : ([c].isPrefixOf (c :: (d.data ++ [' ']))) = true := by
    simp [List.isPrefixOf]
  have hfc : pyFind (frameFor c d) sw = 0 := by
    simp [pyFind, hdata, hsw, charsFindAux, hpre]
  have hnotin : ' ' ∉ c :: d.data := by
    intro hmem
    rcases List.mem_cons.mp hmem with h1 | h1
    · exact hc h1.symm
    · exact hd h1
  have hsingle := charsFindAux_single ' ' (c :: d.data) [] hnotin
  have heq2 : (c :: d.data) ++ ' ' :: [] = c :: (d.data ++ [' ']) := by simp
  have hff : pyFind (frameFor c d) " " = ((d.data.length + 1 : Nat) : Int) := by
    rw [heq2] at hsingle
    simp [pyFind, hdata, hspd, hsingle]
  by_cases hdd : d.data = []
  · have hcond : pyFind (frameFor c d) sw + 1 = pyFind (frameFor c d) " " := by
      rw [hfc, hff, hdd]
      norm_num
    simp only [write_and_read, resetBuffers, readUntil, hr, List.headD_cons, List.tail_cons,
      hps, if_pos, hcond, if_true, hdd]
  · have hlen : d.data.length ≠ 0 := fun h0 => hdd (List.eq_nil_of_length_eq_zero h0)
    have hcond : ¬(pyFind (frameFor c d) sw + 1 = pyFind (frameFor c d) " ") := by
      rw [hfc, hff]
      push_cast
      omega
    have hslice : pySlice (frameFor c d) (pyFind (frameFor c d) sw + 1)
        (pyFind (frameFor c d) " ") = d := by
      rw [hfc, hff]
      unfold pySlice
      rw [hdata]
      simp only [List.length_cons, List.length_append, List.length_nil, Nat.zero_add]
      rw [if_neg (show ¬((0:Int) + 1 < 0) from by omega)]
      rw [if_neg (show ¬(((d.data.length + 1 : Nat) : Int) < 0) from by push_cast; omega)]
      rw [min_eq_left (show ((0:Int) + 1) ≤ ((d.data.length + 1 + 1 : Nat) : Int) from by
        push_cast; omega)]
      rw [min_eq_left (show (((d.data.length + 1 : Nat) : Int)) ≤
          ((d.data.length + 1 + 1 : Nat) : Int) from by push_cast; omega)]
      have h1 : ((0:Int) + 1).toNat = 1 := rfl
      have h2 : (((d.data.length + 1 : Nat) : Int)).toNat = d.data.length + 1 := by
        simp
      rw [h1, h2]
      have h3 : d.data.length + 1 - 1 = d.data.length := by omega
      rw [h3]
      have h4 : (c :: (d.data ++ [' '])).drop 1 = d.data ++ [' '] := rfl
      rw [h4, List.take_left d.data [' ']]
    simp only [write_and_read, resetBuffers, readUntil, hr, List.headD_cons, List.tail_cons,
      hps, if_pos, hcond, if_false, hslice, if_neg hdd]
    cases cf with
    | intCast =>
      cases hpi : pyInt? d with
      | some n => simp only [hpi]
      | none => simp only [hpi]
    | noneCast => rfl

theorem sweepLoop_skip (sup : Bool) (good tail : List String)
    (h : ∀ f ∈ good, f = "" ∨ pyStartswith f "S" = true) :
    sweepLoop sup (good ++ tail) = sweepLoop sup tail := by
  induction good with
  | nil => rfl
  | cons a t ih =>
    have hrest : ∀ f ∈ t, f = "" ∨ pyStartswith f "S" = true :=
      fun f hf => h f (List.mem_cons_of_mem a hf)
    rcases h a (List.mem_cons_self a t) with ha | ha
    · subst ha
      simp only [List.cons_append, sweepLoop, if_pos]
      exact ih hrest
    · by_cases he : a = ""
      · subst he
        simp only [List.cons_append, sweepLoop, if_pos]
        exact ih hrest
      · simp only [List.cons_append, sweepLoop, if_neg he, ha, if_true]
        exact ih hrest

theorem sweepLoop_final (sup : Bool) (fin : String) (rest : List String)
    (hne : fin ≠ "") (hS : pyStartswith fin "S" = false) :
    sweepLoop sup (fin :: rest) =
      if pyStartswith fin "o" then (.done, rest) else (.viol fin, rest) := by
  simp [sweepLoop, hne, hS]

theorem scan_run (t : Transport) (start end_ : Int) (stay : ℚ) (span : Int) (sup : Bool)
    (d1 d2 d3 : String) (p1 p2 p3 : Int) (tail : List String)
    (hs1 : 1510 ≤ start) (hs2 : start ≤ 1589)
    (he1 : 1510 ≤ end_) (he2 : end_ ≤ 1589)
    (ht1 : 1 ≤ npRound (qMul stay 10)) (ht2 : npRound (qMul stay 10) ≤ 300)
    (hq1 : 1 ≤ span) (hq2 : span ≤ 30)
    (hr : t.reads = frameFor 'L' d1 :: frameFor 'H' d2 :: frameFor 'T' d3 :: tail)
    (hd1 : ' ' ∉ d1.data) (hd2 : ' ' ∉ d2.data) (hd3 : ' ' ∉ d3.data)
    (hi1 : pyInt? d1 = some p1) (hi2 : pyInt? d2 = some p2) (hi3 : pyInt? d3 = some p3)
    (hn1 : d1 ≠ "") (hn2 : d2 ≠ "") (hn3 : d3 ≠ "") :
    scan t start end_ stay span sup =
      (match sweepLoop sup tail with
       | (.done, rem) =>
         (ScanOut.ok (some p1) (some p2) (qDiv (p3 : ℚ) 10),
          ⟨rem,
           t.writes ++ ["L" ++ zfill (toString start) 4 ++ ",",
             "H" ++ zfill (toString end_) 4 ++ ",",
             "T" ++ zfill (toString (npRound (qMul stay 10))) 4 ++ ",",
             "S" ++ zfill (toString span) 4 ++ ","],
           t.inputResets + 1 + 1 + 1 + 1, t.outputResets + 1 + 1 + 1 + 1⟩)
       | (.viol raw, rem) =>
         (ScanOut.err (.assertionError ("Device returned unexpected response: " ++ raw)),
          ⟨rem,
           t.writes ++ ["L" ++ zfill (toString start) 4 ++ ",",
             "H" ++ zfill (toString end_) 4 ++ ",",
             "T" ++ zfill (toString (npRound (qMul stay 10))) 4 ++ ",",
             "S" ++ zfill (toString span) 4 ++ ","],
           t.inputResets + 1 + 1 + 1 + 1, t.outputResets + 1 + 1 + 1 + 1⟩)
       | (.hang, rem) =>
         (ScanOut.hang,
          ⟨rem,
           t.writes ++ ["L" ++ zfill (toString start) 4 ++ ",",
             "H" ++ zfill (toString end_) 4 ++ ",",
             "T" ++ zfill (toString (npRound (qMul stay 10))) 4 ++ ",",
             "S" ++ zfill (toString span) 4 ++ ","],
           t.inputResets + 1 + 1 + 1 + 1, t.outputResets + 1 + 1 + 1 + 1⟩)) := by
  have hv1 : ¬(start < 1510 ∨ 1589 < start) := by omega
  have hv2 : ¬(end_ < 1510 ∨ 1589 < end_) := by omega
  have hv3 : ¬(npRound (qMul stay 10) < 1 ∨ 300 < npRound (qMul stay 10)) := by omega
  have hv4 : ¬(span < 1 ∨ 30 < span) := by omega
  have hr1 : (resetBuffers t).reads =
      frameFor 'L' d1 :: (frameFor 'H' d2 :: frameFor 'T' d3 :: tail) := hr
  have e1 := write_and_read_frame (resetBuffers t) (zfill (toString start) 4) "L" "," 'L' d1
      (frameFor 'H' d2 :: frameFor 'T' d3 :: tail) .intCast hr1 rfl (by decide) hd1
  simp only [if_neg (str_data_ne d1 hn1), hi1] at e1
  simp only [scan, if_neg hv1, if_neg hv2, if_neg hv3, if_neg hv4]
  rw [e1]
  dsimp only
  have e2 := write_and_read_frame
      ⟨frameFor 'H' d2 :: frameFor 'T' d3 :: tail,
        (resetBuffers t).writes ++ ["L" ++ zfill (toString start) 4 ++ ","],
        (resetBuffers t).inputResets + 1, (resetBuffers t).outputResets + 1⟩
      (zfill (toString end_) 4) "H" "," 'H' d2 (frameFor 'T' d3 :: tail) .intCast rfl rfl
      (by decide) hd2
  simp only [if_neg (str_data_ne d2 hn2), hi2] at e2
  rw [e2]
  dsimp only
  have e3 := write_and_read_frame
      ⟨frameFor 'T' d3 :: tail,
        ((resetBuffers t).writes ++ ["L" ++ zfill (toString start) 4 ++ ","]) ++
          ["H" ++ zfill (toString end_) 4 ++ ","],
        (resetBuffers t).inputResets + 1 + 1, (resetBuffers t).outputResets + 1 + 1⟩
      (zfill (toString (npRound (qMul stay 10))) 4) "T" "," 'T' d3 tail .intCast rfl rfl
      (by decide) hd3
  simp only [if_neg (str_data_ne d3 hn3), hi3] at e3
  rw [e3]
  dsimp only
  rcases hsl : sweepLoop sup tail with ⟨sig, rem⟩
  cases sig <;> simp [resetBuffers, hsl, List.append_assoc]

/-- C9: the coarse/fine wavelength encoding `coarse = round(wavelength)`,
`fine_steps = round((wavelength - coarse) / 0.2)` maps 1550 to
(coarse 1550, fine 0), 1550.2 to (1550, 1) and 1549.8 to (1550, -1). -/
theorem C9_encoding :
    wlCoarse (qMk 1550 1) = 1550 ∧ wlFine (qMk 1550 1) = 0 ∧
    wlCoarse (qMk 15502 10) = 1550 ∧ wlFine (qMk 15502 10) = 1 ∧
    wlCoarse (qMk 15498 10) = 1550 ∧ wlFine (qMk 15498 10) = -1 := by
  decide

/-- C2: at requested wavelength 1550.37 the encoding gives coarse 1550 and
fine 2, so the achievable wavelength is 1550.4 and the absolute deviation
0.03 exceeds the 1e-6 tolerance — yet `set_channel` emits no precision
warning, because the source compares the signed difference
`wl - (wl_int + wl_fl*0.2)` (here -0.03) against 1e-6 instead of its
absolute value.  The claimed behaviour (warn whenever the achievable
wavelength differs by more than 1e-6 in absolute value) does not hold. -/
theorem C2_no_warning_at_1550_37 :
    wlCoarse (qMk 155037 100) = 1550 ∧ wlFine (qMk 155037 100) = 2 ∧
    qAdd ((1550 : Int) : ℚ) (qMul ((2 : Int) : ℚ) (qMk 1 5)) = qMk 15504 10 ∧
    qMk 1 1000000 < qSub (qMk 15504 10) (qMk 155037 100) ∧
    (set_channel ⟨["C ", "I "], [], 0, 0⟩ (qMk 155037 100) false).warns = [] := by
  decide

/-- C10: in `write_and_read`, a read that times out and yields the empty
byte string is not distinguished from a device desync: for every command
letter and cast function, the empty response fails the echoed-letter
check and raises the same unexpected-response ProtocolViolation
(AssertionError) carrying the empty text, rather than returning a
timeout-specific result. -/
theorem C10_timeout_is_protocol_violation (t : Transport) (inp sw er ew : String) (cf : CastFn)
    (hto : t.reads.headD "" = "") (hsw : sw ≠ "") :
    (write_and_read t inp sw er ew cf).1 =
      .error (.assertionError ("Device returned unexpected response: " ++ "")) := by
  have hps := pyStartswith_empty sw hsw
  simp only [write_and_read, resetBuffers, readUntil, hto, hps, Bool.false_eq_true, if_false]

/-- C10 witness: a timed-out `C` exchange on an exhausted script raises
the unexpected-response ProtocolViolation carrying the empty text. -/
theorem C10_witness :
    (write_and_read ⟨[], [], 0, 0⟩ "1510" "C" " " "," .noneCast).1 =
      .error (.assertionError ("Device returned unexpected response: " ++ "")) :=
  C10_timeout_is_protocol_violation ⟨[], [], 0, 0⟩ "1510" "C" " " "," .noneCast rfl (by decide)

/-- C4 counterexample: at wavelength 1600 (rounded coarse outside
[1510, 1589]) `set_channel` does not return the failure result -1 as
claimed; it raises ValueError (the RangeError of the spec). -/
theorem C4_counterexample :
    (set_channel ⟨[], [], 0, 0⟩ (qMk 1600 1) false).ret ≠ .ok (some (-1)) ∧
    (set_channel ⟨[], [], 0, 0⟩ (qMk 1600 1) false).ret =
      .error (.valueError "The wavelength has to be between 1510 and 1589, got 1600.") := by
  decide

/-- C4 amended: for every wavelength whose rounded coarse value lies
outside [1510, 1589], `set_channel` raises ValueError naming the
wavelength — rather than returning -1 — and performs the range check
before touching the device: no bytes are written and no response is
consumed. -/
theorem C4_range_error (t : Transport) (wl : ℚ) (sup : Bool)
    (h : wlCoarse wl < 1510 ∨ 1589 < wlCoarse wl) :
    (set_channel t wl sup).ret =
      .error (.valueError s!"The wavelength has to be between 1510 and 1589, got {wl}.") ∧
    (set_channel t wl sup).t.writes = t.writes ∧
    (set_channel t wl sup).t.reads = t.reads := by
  refine ⟨?_, ?_, ?_⟩ <;> simp [set_channel, if_pos h, resetBuffers]

/-- C4 witness: the amended claim at wavelength 1600 on a fresh
transport. -/
theorem C4_witness :
    (set_channel ⟨[], [], 0, 0⟩ (qMk 1600 1) false).ret =
      .error (.valueError s!"The wavelength has to be between 1510 and 1589, got {qMk 1600 1}.") ∧
    (set_channel ⟨[], [], 0, 0⟩ (qMk 1600 1) false).t.writes = ([] : List String) ∧
    (set_channel ⟨[], [], 0, 0⟩ (qMk 1600 1) false).t.reads = ([] : List String) :=
  C4_range_error ⟨[], [], 0, 0⟩ (qMk 1600 1) false (by decide)

/-- C1 counterexample: with a simulated exchange failure on command `C`
(the device answers `X1510 ` instead of a `C` echo) at in-range
wavelength 1550, `set_channel` does not return -1 (nor 0): the
AssertionError propagates to the caller, contradicting the claim that
every exchange failure is caught and converted to -1. -/
theorem C1_counterexample :
    (set_channel ⟨["X1510 "], [], 0, 0⟩ (qMk 1550 1) false).ret =
      .error (.assertionError "Device returned unexpected response: X1510 ") ∧
    (set_channel ⟨["X1510 "], [], 0, 0⟩ (qMk 1550 1) false).ret ≠ .ok (some (-1)) ∧
    (set_channel ⟨["X1510 "], [], 0, 0⟩ (qMk 1550 1) false).ret ≠ .ok (some 0) := by
  decide

/-- C1 amended: `set_channel` does not catch exchange failures.  For
every in-range wavelength, when the response to the `C` command fails the
echo check, the AssertionError (ProtocolViolation) carrying the raw
response propagates to the caller, and the call never produces the
failure result -1. -/
theorem C1_exchange_failure_propagates (t : Transport) (wl : ℚ) (sup : Bool) (d : String)
    (rest : List String)
    (h1 : ¬(wlCoarse wl < 1510 ∨ 1589 < wlCoarse wl))
    (hr : t.reads = d :: rest)
    (hv : pyStartswith d "C" = false) :
    (set_channel t wl sup).ret =
      .error (.assertionError ("Device returned unexpected response: " ++ d)) ∧
    (set_channel t wl sup).ret ≠ .ok (some (-1)) := by
  have e : write_and_read (resetBuffers t) (zfill (toString (wlCoarse wl)) 4) "C" " " ","
        .noneCast =
      (.error (.assertionError ("Device returned unexpected response: " ++ d)),
       ⟨rest, t.writes ++ ["C" ++ zfill (toString (wlCoarse wl)) 4 ++ ","],
        t.inputResets + 1 + 1, t.outputResets + 1 + 1⟩) := by
    simp only [write_and_read, resetBuffers, readUntil, hr, List.headD_cons, List.tail_cons,
      hv, Bool.false_eq_true, if_false]
  simp only [set_channel, if_neg h1]
  rw [e]
  dsimp only
  refine ⟨rfl, ?_⟩
  intro hcon
  exact Except.noConfusion hcon

/-- C1 witness: the amended claim at wavelength 1550 with the scripted
response `X1510 `. -/
theorem C1_witness :
    (set_channel ⟨["X1510 "], [], 0, 0⟩ (qMk 1550 1) false).ret =
      .error (.assertionError ("Device returned unexpected response: " ++ "X1510 ")) ∧
    (set_channel ⟨["X1510 "], [], 0, 0⟩ (qMk 1550 1) false).ret ≠ .ok (some (-1)) :=
  C1_exchange_failure_propagates ⟨["X1510 "], [], 0, 0⟩ (qMk 1550 1) false "X1510 " []
    (by decide) rfl (by decide)

/-- C8 counterexample: an acknowledgement exchange (`None` cast) whose
response does carry payload bytes (`C1234 `) does not proceed with the
payload discarded: `set_channel` raises TypeError (calling `None`),
contradicting the claim that the operation proceeds regardless of
whether payload bytes are present. -/
theorem C8_counterexample :
    (set_channel ⟨["C1234 "], [], 0, 0⟩ (qMk 1510 1) false).ret =
      .error (.typeError "NoneType object is not callable") := by
  decide

/-- C8 amended: an exchange run with the `None` cast function is
acknowledgement-only exactly in the no-payload case: the echo is
validated and no value is returned.  When payload bytes do lie between
the echo and the delimiter, the codec applies the `None` cast to them and
raises TypeError — the payload is not discarded and the operation does
not proceed. -/
theorem C8_noneCast_behaviour (t : Transport) (inp ew : String) (c : Char) (d : String)
    (rest : List String)
    (hr : t.reads = frameFor c d :: rest) (hc : c ≠ ' ') (hd : ' ' ∉ d.data) :
    (d = "" →
      write_and_read t inp (String.mk [c]) " " ew .noneCast =
        (.ok none,
         ⟨rest, t.writes ++ [String.mk [c] ++ inp ++ ew],
          t.inputResets + 1, t.outputResets + 1⟩)) ∧
    (d ≠ "" →
      (write_and_read t inp (String.mk [c]) " " ew .noneCast).1 =
        .error (.typeError "NoneType object is not callable")) := by
  have e := write_and_read_frame t inp (String.mk [c]) ew c d rest .noneCast hr rfl hc hd
  constructor
  · intro hde
    subst hde
    have hnil : ("" : String).data = ([] : List Char) := rfl
    rw [e, if_pos hnil]
  · intro hdn
    rw [e, if_neg (str_data_ne d hdn)]

/-- C8 witness: the amended claim at both a payload-free `C ` response
(ack, returns no value) and a payload-carrying `C1234 ` response
(TypeError). -/
theorem C8_witness :
    write_and_read ⟨["C "], [], 0, 0⟩ "1510" (String.mk ['C']) " " "," .noneCast =
      (.ok none, ⟨[], [] ++ [String.mk ['C'] ++ "1510" ++ ","], 0 + 1, 0 + 1⟩) ∧
    (write_and_read ⟨["C1234 "], [], 0, 0⟩ "1510" (String.mk ['C']) " " "," .noneCast).1 =
      .error (.typeError "NoneType object is not callable") := by
  constructor
  · exact (C8_noneCast_behaviour ⟨["C "], [], 0, 0⟩ "1510" "," 'C' "" []
      (by decide) (by decide) (by decide)).1 rfl
  · exact (C8_noneCast_behaviour ⟨["C1234 "], [], 0, 0⟩ "1510" "," 'C' "1234" []
      (by decide) (by decide) (by decide)).2 (by decide)

/-- C3 counterexample: with the first port's probe answering the invalid
UTF-8 byte `0xFF` and the second port a genuine filter (`V2 `),
discovery does not skip the failing port and find the filter: the
UnicodeDecodeError aborts the whole scan. -/
theorem C3_counterexample :
    connect [⟨"COM1", [255]⟩, ⟨"COM2", [86, 50, 32]⟩] = .decodeErr ∧
    connect [⟨"COM1", [255]⟩, ⟨"COM2", [86, 50, 32]⟩] ≠ .found "COM2" := by
  decide

/-- C3 amended: when a candidate port's identity-probe response fails to
decode as UTF-8, the UnicodeDecodeError propagates and aborts the whole
discovery scan (earlier ports that decode but do not match are skipped
normally); the failing port is not treated as a non-match and later
ports are never probed. -/
theorem C3_decode_error_aborts (pre : List Port) (p : Port) (rest : List Port)
    (hpre : ∀ q ∈ pre, probeMisses q = true)
    (hp : utf8Decode p.probe = none) :
    connect (pre ++ p :: rest) = .decodeErr := by
  induction pre with
  | nil =>
    simp only [List.nil_append, connect, hp]
  | cons a t ih =>
    have ha := hpre a (List.mem_cons_self a t)
    have hrest : ∀ q ∈ t, probeMisses q = true :=
      fun q hq => hpre q (List.mem_cons_of_mem a hq)
    rcases hdec : utf8Decode a.probe with _ | s
    · rw [probeMisses, hdec] at ha
      exact absurd ha (by simp)
    · have hnm : pyStartswith s "V2" = false := by
        rw [probeMisses, hdec] at ha
        simpa using ha
      simp only [List.cons_append, connect, hdec, hnm, Bool.false_eq_true, if_false]
      exact ih hrest

/-- C3 witness: the amended claim with one non-matching UTF-8 port before
the undecodable one. -/
theorem C3_witness :
    connect [⟨"COM0", [86, 49, 32]⟩, ⟨"COM1", [255]⟩, ⟨"COM2", [86, 50, 32]⟩] = .decodeErr :=
  C3_decode_error_aborts [⟨"COM0", [86, 49, 32]⟩] ⟨"COM1", [255]⟩ [⟨"COM2", [86, 50, 32]⟩]
    (by decide) (by decide)

/-- C6: whenever some scan parameter violates its documented bound
(start or end outside [1510, 1589], the stay encoding in tenths outside
[1, 300], span outside [1, 30]), `scan` raises ValueError (RangeError)
whose message names the first violated field, and no device interaction
takes place: no bytes are written to the transport and no response is
consumed. -/
theorem C6_validation (t : Transport) (start end_ : Int) (stay : ℚ) (span : Int) (sup : Bool)
    (h : start < 1510 ∨ 1589 < start ∨ end_ < 1510 ∨ 1589 < end_ ∨
      npRound (qMul stay 10) < 1 ∨ 300 < npRound (qMul stay 10) ∨ span < 1 ∨ 30 < span) :
    (scan t start end_ stay span sup).2.writes = t.writes ∧
    (scan t start end_ stay span sup).2.reads = t.reads ∧
    (((start < 1510 ∨ 1589 < start) ∧
      (scan t start end_ stay span sup).1 =
        .err (.valueError
          s!"The start wavelength has to be between 1510 and 1589, got {start}.")) ∨
     (¬(start < 1510 ∨ 1589 < start) ∧ (end_ < 1510 ∨ 1589 < end_) ∧
      (scan t start end_ stay span sup).1 =
        .err (.valueError
          s!"The end wavelength has to be between 1510 and 1589, got {end_}.")) ∨
     (¬(start < 1510 ∨ 1589 < start) ∧ ¬(end_ < 1510 ∨ 1589 < end_) ∧
      (npRound (qMul stay 10) < 1 ∨ 300 < npRound (qMul stay 10)) ∧
      (scan t start end_ stay span sup).1 =
        .err (.valueError s!"The stay time has to be between 0.1 and 30.0, got {stay}.")) ∨
     (¬(start < 1510 ∨ 1589 < start) ∧ ¬(end_ < 1510 ∨ 1589 < end_) ∧
      ¬(npRound (qMul stay 10) < 1 ∨ 300 < npRound (qMul stay 10)) ∧
      (span < 1 ∨ 30 < span) ∧
      (scan t start end_ stay span sup).1 =
        .err (.valueError s!"The stay span has to be between 1 and 30, got {span}."))) := by
  by_cases c1 : start < 1510 ∨ 1589 < start
  · refine ⟨?_, ?_, Or.inl ⟨c1, ?_⟩⟩ <;> simp [scan, resetBuffers, if_pos c1]
  · by_cases c2 : end_ < 1510 ∨ 1589 < end_
    · refine ⟨?_, ?_, Or.inr (Or.inl ⟨c1, c2, ?_⟩)⟩ <;>
        simp [scan, resetBuffers, if_neg c1, if_pos c2]
    · by_cases c3 : npRound (qMul stay 10) < 1 ∨ 300 < npRound (qMul stay 10)
      · refine ⟨?_, ?_, Or.inr (Or.inr (Or.inl ⟨c1, c2, c3, ?_⟩))⟩ <;>
          simp [scan, resetBuffers, if_neg c1, if_neg c2, if_pos c3]
      · have c4 : span < 1 ∨ 30 < span := by tauto
        refine ⟨?_, ?_, Or.inr (Or.inr (Or.inr ⟨c1, c2, c3, c4, ?_⟩))⟩ <;>
          simp [scan, resetBuffers, if_neg c1, if_neg c2, if_neg c3, if_pos c4]

/-- C6 witness: the amended claim at span 31 with the other parameters
valid: `scan` errors on the span field with nothing written or read. -/
theorem C6_witness :
    (scan ⟨["L1510 "], [], 0, 0⟩ 1520 1530 (qMk 3 2) 31 false).2.writes = ([] : List String) ∧
    (scan ⟨["L1510 "], [], 0, 0⟩ 1520 1530 (qMk 3 2) 31 false).2.reads = ["L1510 "] ∧
    (((1520 : Int) < 1510 ∨ (1589 : Int) < 1520) ∧
      (scan ⟨["L1510 "], [], 0, 0⟩ 1520 1530 (qMk 3 2) 31 false).1 =
        .err (.valueError
          s!"The start wavelength has to be between 1510 and 1589, got {(1520 : Int)}.") ∨
     ¬((1520 : Int) < 1510 ∨ (1589 : Int) < 1520) ∧ ((1530 : Int) < 1510 ∨ (1589 : Int) < 1530) ∧
      (scan ⟨["L1510 "], [], 0, 0⟩ 1520 1530 (qMk 3 2) 31 false).1 =
        .err (.valueError
          s!"The end wavelength has to be between 1510 and 1589, got {(1530 : Int)}.") ∨
     ¬((1520 : Int) < 1510 ∨ (1589 : Int) < 1520) ∧ ¬((1530 : Int) < 1510 ∨ (1589 : Int) < 1530) ∧
      (npRound (qMul (qMk 3 2) 10) < 1 ∨ 300 < npRound (qMul (qMk 3 2) 10)) ∧
      (scan ⟨["L1510 "], [], 0, 0⟩ 1520 1530 (qMk 3 2) 31 false).1 =
        .err (.valueError s!"The stay time has to be between 0.1 and 30.0, got {qMk 3 2}.") ∨
     ¬((1520 : Int) < 1510 ∨ (1589 : Int) < 1520) ∧ ¬((1530 : Int) < 1510 ∨ (1589 : Int) < 1530) ∧
      ¬(npRound (qMul (qMk 3 2) 10) < 1 ∨ 300 < npRound (qMul (qMk 3 2) 10)) ∧
      ((31 : Int) < 1 ∨ (30 : Int) < 31) ∧
      (scan ⟨["L1510 "], [], 0, 0⟩ 1520 1530 (qMk 3 2) 31 false).1 =
        .err (.valueError s!"The stay span has to be between 1 and 30, got {(31 : Int)}.")) :=
  C6_validation ⟨["L1510 "], [], 0, 0⟩ 1520 1530 (qMk 3 2) 31 false (by decide)

/-- C7: for every valid parameter set (start, end in [1510, 1589], stay
encoding to tenths in [1, 300], span in [1, 30]), `scan` issues exactly
three configuration exchanges, in order L (start), H (end), T (stay in
tenths), before writing the sweep trigger `S`; the previous stay value
returned to the caller is the decoded tenths integer divided by 10. -/
theorem C7_configuration (t : Transport) (start end_ : Int) (stay : ℚ) (span : Int) (sup : Bool)
    (d1 d2 d3 : String) (p1 p2 p3 : Int) (fin : String) (rest : List String)
    (hs1 : 1510 ≤ start) (hs2 : start ≤ 1589)
    (he1 : 1510 ≤ end_) (he2 : end_ ≤ 1589)
    (ht1 : 1 ≤ npRound (qMul stay 10)) (ht2 : npRound (qMul stay 10) ≤ 300)
    (hq1 : 1 ≤ span) (hq2 : span ≤ 30)
    (hr : t.reads = [frameFor 'L' d1, frameFor 'H' d2, frameFor 'T' d3, fin] ++ rest)
    (hd1 : ' ' ∉ d1.data) (hd2 : ' ' ∉ d2.data) (hd3 : ' ' ∉ d3.data)
    (hi1 : pyInt? d1 = some p1) (hi2 : pyInt? d2 = some p2) (hi3 : pyInt? d3 = some p3)
    (hn1 : d1 ≠ "") (hn2 : d2 ≠ "") (hn3 : d3 ≠ "")
    (hfS : pyStartswith fin "S" = false) (hfo : pyStartswith fin "o" = true)
    (hfe : fin ≠ "") :
    (scan t start end_ stay span sup).1 = .ok (some p1) (some p2) (qDiv (p3 : ℚ) 10) ∧
    (scan t start end_ stay span sup).2.writes =
      t.writes ++ ["L" ++ zfill (toString start) 4 ++ ",",
        "H" ++ zfill (toString end_) 4 ++ ",",
        "T" ++ zfill (toString (npRound (qMul stay 10))) 4 ++ ",",
        "S" ++ zfill (toString span) 4 ++ ","] := by
  have hm := scan_run t start end_ stay span sup d1 d2 d3 p1 p2 p3 (fin :: rest)
    hs1 hs2 he1 he2 ht1 ht2 hq1 hq2 (by simpa using hr) hd1 hd2 hd3 hi1 hi2 hi3 hn1 hn2 hn3
  rw [sweepLoop_final sup fin rest hfe hfS, if_pos hfo] at hm
  exact ⟨by rw [hm], by rw [hm]⟩

/-- C7 witness: the instantiated claim with start 1520, end 1530, stay
1.5 s (tenths 15), span 5, previous values 1510, 1589 and 10 tenths, and
the sweep ending immediately with the `oK ` sentinel. -/
theorem C7_witness :
    (scan ⟨["L1510 ", "H1589 ", "T0010 ", "oK "], [], 0, 0⟩ 1520 1530 (qMk 3 2) 5 false).1 =
      .ok (some 1510) (some 1589) (qDiv ((10 : Int) : ℚ) 10) ∧
    (scan ⟨["L1510 ", "H1589 ", "T0010 ", "oK "], [], 0, 0⟩ 1520 1530 (qMk 3 2) 5 false).2.writes =
      [] ++ ["L" ++ zfill (toString (1520 : Int)) 4 ++ ",",
        "H" ++ zfill (toString (1530 : Int)) 4 ++ ",",
        "T" ++ zfill (toString (npRound (qMul (qMk 3 2) 10))) 4 ++ ",",
        "S" ++ zfill (toString (5 : Int)) 4 ++ ","] :=
  C7_configuration ⟨["L1510 ", "H1589 ", "T0010 ", "oK "], [], 0, 0⟩ 1520 1530 (qMk 3 2) 5 false
    "1510" "1589" "0010" 1510 1589 10 "oK " []
    (by decide) (by decide) (by decide) (by decide) (by decide) (by decide) (by decide) (by decide)
    (by decide) (by decide) (by decide) (by decide) (by decide) (by decide) (by decide)
    (by decide) (by decide) (by decide) (by decide) (by decide) (by decide)

/-- C5: in the sweep loop of `scan`, after any number of well-formed
sweep frames (empty reads or `S`-prefixed frames), the first frame that
violates the S-prefix expectation ends the sweep: when its content starts
with `o` this is normal completion — the loop exits and `scan` returns
the three previous-setting values gathered during configuration; with
any other prefix the AssertionError (ProtocolViolation) is re-raised to
the caller, with no retry. -/
theorem C5_sweep_termination (t : Transport) (start end_ : Int) (stay : ℚ) (span : Int)
    (sup : Bool) (d1 d2 d3 : String) (p1 p2 p3 : Int)
    (good : List String) (fin : String) (rest : List String)
    (hs1 : 1510 ≤ start) (hs2 : start ≤ 1589)
    (he1 : 1510 ≤ end_) (he2 : end_ ≤ 1589)
    (ht1 : 1 ≤ npRound (qMul stay 10)) (ht2 : npRound (qMul stay 10) ≤ 300)
    (hq1 : 1 ≤ span) (hq2 : span ≤ 30)
    (hg : ∀ f ∈ good, f = "" ∨ pyStartswith f "S" = true)
    (hr : t.reads = [frameFor 'L' d1, frameFor 'H' d2, frameFor 'T' d3] ++ good ++ fin :: rest)
    (hd1 : ' ' ∉ d1.data) (hd2 : ' ' ∉ d2.data) (hd3 : ' ' ∉ d3.data)
    (hi1 : pyInt? d1 = some p1) (hi2 : pyInt? d2 = some p2) (hi3 : pyInt? d3 = some p3)
    (hn1 : d1 ≠ "") (hn2 : d2 ≠ "") (hn3 : d3 ≠ "")
    (hfS : pyStartswith fin "S" = false) (hfe : fin ≠ "") :
    (pyStartswith fin "o" = true →
      (scan t start end_ stay span sup).1 = .ok (some p1) (some p2) (qDiv (p3 : ℚ) 10)) ∧
    (pyStartswith fin "o" = false →
      (scan t start end_ stay span sup).1 =
        .err (.assertionError ("Device returned unexpected response: " ++ fin))) := by
  have hm := scan_run t start end_ stay span sup d1 d2 d3 p1 p2 p3 (good ++ fin :: rest)
    hs1 hs2 he1 he2 ht1 ht2 hq1 hq2 (by simpa using hr) hd1 hd2 hd3 hi1 hi2 hi3 hn1 hn2 hn3
  rw [sweepLoop_skip sup good (fin :: rest) hg,
    sweepLoop_final sup fin rest hfe hfS] at hm
  constructor
  · intro ho
    rw [if_pos ho] at hm
    rw [hm]
  · intro ho
    rw [if_neg (by rw [ho]; exact Bool.false_ne_true)] at hm
    rw [hm]

/-- C5 witness: both termination behaviours on the scripted sweeps of
the spec: frames `S1520 `, `S1525 `, then `oK ` complete normally with
the three previous settings; the same sweep ending in `E1 ` re-raises
the ProtocolViolation. -/
theorem C5_witness :
    ((scan ⟨["L1510 ", "H1589 ", "T0010 ", "S1520 ", "S1525 ", "oK "], [], 0, 0⟩
        1520 1530 (qMk 3 2) 5 false).1 =
      .ok (some 1510) (some 1589) (qDiv ((10 : Int) : ℚ) 10)) ∧
    ((scan ⟨["L1510 ", "H1589 ", "T0010 ", "S1520 ", "E1 "], [], 0, 0⟩
        1520 1530 (qMk 3 2) 5 false).1 =
      .err (.assertionError ("Device returned unexpected response: " ++ "E1 "))) := by
  constructor
  · exact (C5_sweep_termination ⟨["L1510 ", "H1589 ", "T0010 ", "S1520 ", "S1525 ", "oK "],
      [], 0, 0⟩ 1520 1530 (qMk 3 2) 5 false "1510" "1589" "0010" 1510 1589 10
      ["S1520 ", "S1525 "] "oK " []
      (by decide) (by decide) (by decide) (by decide) (by decide) (by decide) (by decide)
      (by decide) (by decide) (by decide) (by decide) (by decide) (by decide) (by decide)
      (by decide) (by decide) (by decide) (by decide) (by decide) (by decide) (by decide)).1
      (by decide)
  · exact (C5_sweep_termination ⟨["L1510 ", "H1589 ", "T0010 ", "S1520 ", "E1 "],
      [], 0, 0⟩ 1520 1530 (qMk 3 2) 5 false "1510" "1589" "0010" 1510 1589 10
      ["S1520 "] "E1 " []
      (by decide) (by decide) (by decide) (by decide) (by decide) (by decide) (by decide)
      (by decide) (by decide) (by decide) (by decide) (by decide) (by decide) (by decide)
      (by decide) (by decide) (by decide) (by decide) (by decide) (by decide) (by decide)).2
      (by decide)
